import Mathlib

/-
Verification of the retrieval-decision and conversation-orchestration core of
the MoneyMong backend (FastAPI + LangGraph RAG service).

The Python core is shallowly embedded:
* Python `str` values are Lean `String`s; slicing, `lower()`, `strip()` and
  `join` are modelled on the code-point list `String.data`, matching Python's
  code-point semantics.
* Similarity scores (floats in `[-1, 1]` coming from `1 - cosine_distance`)
  are modelled as exact rationals `ℚ`.
* The external collaborators (pgvector query, Upstage LLM, LangGraph
  checkpointer) enter as explicit inputs: the corpus with per-query
  similarities already attached, the provider's raw reply text, and a keyed
  map of checkpoints.
-/

namespace MoneyMong

/-- Python truthiness of a `str`: `if s:` is taken iff the string is nonempty. -/
def strTruthy (s : String) : Bool := !(s == "")

/-- Python truthiness of an `Optional[str]` (`None` and `""` are falsy). -/
def optStrTruthy : Option String → Bool
  | none => false
  | some s => strTruthy s

/-- Python `s[:n]` on a `str`, as a take on the code-point list. -/
def pySlice (s : String) (n : Nat) : String := ⟨s.data.take n⟩

/-- Python `str.lower()` (ASCII case mapping, applied code point by code point). -/
def pyLower (s : String) : String := ⟨s.data.map Char.toLower⟩

/-- The ASCII whitespace stripped by Python `str.strip()`. -/
def isPyWhitespace (c : Char) : Bool :=
  c == ' ' || c == '\t' || c == '\n' || c == '\r' || c == '\x0B' || c == '\x0C'

/-- Python `str.strip()`: drop leading and trailing whitespace. -/
def pyStrip (s : String) : String :=
  ⟨((s.data.dropWhile isPyWhitespace).reverse.dropWhile isPyWhitespace).reverse⟩

/-- Python `sep.join(parts)`. -/
def pyJoin (sep : String) : List String → String
  | [] => ""
  | [x] => x
  | x :: y :: rest => x ++ sep ++ pyJoin sep (y :: rest)

/-- Python `max(list)` on similarity scores, by left fold as CPython computes it.
The `[]` case returns `0` to mirror its only empty-list use site,
`max(...) if chunks else 0.0` in `should_use_chunks`. -/
def pyMax : List ℚ → ℚ
  | [] => 0
  | x :: xs => xs.foldl max x

/-- A row of the `document_chunks` similarity query in `app/core/mretriever.py`:
`(id, document_id, chunk_index, content, 1 - (embedding <=> query) AS similarity)`.
The query-time similarity is carried on the row, as in the SQL result. -/
structure Chunk where
  id : String
  document_id : String
  chunk_index : Nat
  content : String
  similarity : ℚ
deriving DecidableEq

/-- The dict returned by `should_use_chunks`:
`{"use_chunks": bool, "max_similarity": float, "reason": str}`. -/
structure Decision where
  use_chunks : Bool
  max_similarity : ℚ
  reason : String
deriving DecidableEq

/-- `should_use_chunks(document_id, chunks, similarity_threshold)` of
`app/core/mretriever.py`: the three-branch relevance decision table. -/
def should_use_chunks (document_id : Option String) (chunks : List Chunk)
    (similarity_threshold : ℚ) : Decision :=
  if optStrTruthy document_id then
    ⟨true, if chunks.isEmpty then 0 else pyMax (chunks.map Chunk.similarity),
      "document_based_conversation"⟩
  else if chunks.isEmpty then
    ⟨false, 0, "no_relevant_chunks"⟩
  else
    let max_similarity := pyMax (chunks.map Chunk.similarity)
    if max_similarity ≥ similarity_threshold then
      ⟨true, max_similarity, "relevant_chunks_found"⟩
    else
      ⟨false, max_similarity, "low_similarity"⟩

/-- The `ORDER BY embedding <=> query` of the retrieval SQL, i.e. similarity
descending (similarity = 1 − distance). The SQL leaves ties unspecified;
insertion sort fixes one deterministic order. -/
def sortBySimilarityDesc (rows : List Chunk) : List Chunk :=
  List.insertionSort (fun a b => b.similarity ≤ a.similarity) rows

/-- `retrieve_chunks(db, embedding, top_k)`: full-corpus nearest-neighbour
query with `LIMIT top_k`, no document filter. -/
def retrieve_chunks (corpus : List Chunk) (top_k : Nat) : List Chunk :=
  (sortBySimilarityDesc corpus).take top_k

/-- `retrieve_chunks_for_document(db, embedding, document_id, top_k)`: the same
query with `WHERE document_id = :document_id` added when `document_id` is
Python-truthy. -/
def retrieve_chunks_for_document (corpus : List Chunk) (document_id : Option String)
    (top_k : Nat) : List Chunk :=
  let filtered :=
    if optStrTruthy document_id then
      corpus.filter (fun c => c.document_id == document_id.getD "")
    else corpus
  (sortBySimilarityDesc filtered).take top_k

/-- `build_context(chunks, max_length=700)` of `app/core/context_builder.py`:
join the chunk contents with a blank line, then truncate to `max_length`
code points. -/
def build_context (chunks : List Chunk) (max_length : Nat) : String :=
  pySlice (pyJoin "\n\n" (chunks.map Chunk.content)) max_length

/-- A `uuid.UUID` value: an opaque identity. A UUID object is always truthy in
Python, and `str(uuid)` is always a nonempty string. -/
structure Uuid where
  val : Nat
deriving DecidableEq

/-- Python `str(uuid)`: a nonempty textual rendering of the identity. -/
def strUuid (u : Uuid) : String := "urn-uuid-" ++ toString u.val

/-- The per-chunk summary dict that `rag_retrieve_node` writes into state:
`{"id": str(chunk.id), "content": chunk.content[:200], "similarity": ...}`. -/
structure ChunkSummary where
  id : String
  content : String
  similarity : ℚ
deriving DecidableEq

/-- The summary construction in `rag_retrieve_node`. -/
def summarize_chunk (c : Chunk) : ChunkSummary :=
  ⟨c.id, pySlice c.content 200, c.similarity⟩

/-- The state update returned by `rag_retrieve_node` (the opaque
`query_embedding` field is omitted). -/
structure RetrieveUpdate where
  retrieved_chunks : List ChunkSummary
  context : String
  use_chunks : Bool
  decision_reason : String
  max_similarity : ℚ
deriving DecidableEq

/-- `rag_retrieve_node` of `app/core/graph_nodes.py`: when a document id is
bound, run the document-filtered retrieval with `top_k = 3`; otherwise the
chunk list is set to `[]` with no query. Then apply the decision table with
threshold `0.7` and build the context only when `use_chunks` is true. -/
def rag_retrieve_node (corpus : List Chunk) (document_id : Option Uuid) : RetrieveUpdate :=
  let chunks : List Chunk :=
    match document_id with
    | some d => retrieve_chunks_for_document corpus (some (strUuid d)) 3
    | none => []
  let decision := should_use_chunks (document_id.map strUuid) chunks (7/10)
  let context := if decision.use_chunks then build_context chunks 700 else ""
  ⟨chunks.map summarize_chunk, context, decision.use_chunks, decision.reason,
    decision.max_similarity⟩

/-- A LangChain message: `HumanMessage` / `AIMessage`, distinguished by role. -/
structure Msg where
  role : String
  content : String
deriving DecidableEq

/-- `HumanMessage(content=...)`. -/
def humanMessage (content : String) : Msg := ⟨"human", content⟩

/-- `AIMessage(content=...)`. -/
def aiMessage (content : String) : Msg := ⟨"ai", content⟩

/-- The context-injected user message that `llm_generate_node` builds when the
context survives `strip()`: `[검색된 문서 정보]\n{context}\n\n[현재 질문]\n{question}`. -/
def injected_user_message (context question : String) : String :=
  "[검색된 문서 정보]\n" ++ context ++ "\n\n[현재 질문]\n" ++ question

/-- `user_message_content` of `llm_generate_node`: guarded by
`if context and context.strip():`. -/
def user_message_content (context question : String) : String :=
  if strTruthy context && strTruthy (pyStrip context) then
    injected_user_message context question
  else question

/-- The message list handed to the LLM chain by `llm_generate_node`:
`messages + [HumanMessage(content=user_message_content)]` — the full loaded
history plus the one composed user message. -/
def llm_input (messages : List Msg) (context question : String) : List Msg :=
  messages ++ [humanMessage (user_message_content context question)]

/-- The `messages` state update of `llm_generate_node`:
`messages + [HumanMessage(content=question), AIMessage(content=answer)]` —
the raw question, not the context-injected content. -/
def updated_messages (messages : List Msg) (question answer : String) : List Msg :=
  messages ++ [humanMessage question, aiMessage answer]

/-- The `UserLevel` enum of `app/core/prompts.py`. -/
inductive UserLevel where
  | beginner
  | intermediate
  | advanced
deriving DecidableEq

/-- `UserLevel(value)`: the enum constructor, raising `ValueError` (here
`none`) on an unrecognised value. -/
def userLevelOfValue (s : String) : Option UserLevel :=
  if s == "beginner" then some .beginner
  else if s == "intermediate" then some .intermediate
  else if s == "advanced" then some .advanced
  else none

/-- The `try: UserLevel(user_level.lower()) except ValueError: BEGINNER`
conversion in `llm_generate_node`. -/
def llm_generate_node_level (user_level : String) : UserLevel :=
  match userLevelOfValue (pyLower user_level) with
  | some level => level
  | none => .beginner

/-- The identical conversion in `followup_node`. -/
def followup_node_level (user_level : String) : UserLevel :=
  match userLevelOfValue (pyLower user_level) with
  | some level => level
  | none => .beginner

/-- Split a code-point list at the first occurrence of a pattern, returning
the text before the pattern and the text after it. -/
def splitFirst (pat : List Char) : List Char → Option (List Char × List Char)
  | [] => if pat.isEmpty then some ([], []) else none
  | c :: rest =>
    if pat.isPrefixOf (c :: rest) then some ([], (c :: rest).drop pat.length)
    else
      match splitFirst pat rest with
      | none => none
      | some (pre, post) => some (c :: pre, post)

/-- All captures of `re.findall(r"<question>(.*?)</question>", text, re.DOTALL)`:
non-overlapping, leftmost starts, shortest bodies. Each successful round
consumes both tags, so fuel `length + 1` never runs out. -/
def findQuestionTags (fuel : Nat) (l : List Char) : List (List Char) :=
  match fuel with
  | 0 => []
  | fuel + 1 =>
    match splitFirst "<question>".data l with
    | none => []
    | some (_, rest1) =>
      match splitFirst "</question>".data rest1 with
      | none => []
      | some (body, rest2) => body :: findQuestionTags fuel rest2

/-- The `re.findall` call of `generate_follow_up_questions`. -/
def re_findall_questions (text : String) : List String :=
  (findQuestionTags (text.data.length + 1) text.data).map (fun cs => ⟨cs⟩)

/-- `generate_follow_up_questions` of `app/core/llm.py`, from the provider's
raw reply (the LLM call is the external collaborator): strip the reply,
extract `<question>` captures, strip each, drop blanks, truncate to
`num_questions`. -/
def generate_follow_up_questions (provider_output : String) (num_questions : Nat) :
    List String :=
  let response_text := pyStrip provider_output
  let questions := re_findall_questions response_text
  let cleaned := (questions.map pyStrip).filter (fun q => !(q == ""))
  cleaned.take num_questions

/-- Modelled from the spec: the durable checkpoint backend
(`AsyncPostgresSaver`, an external collaborator not in src) as a keyed map
from thread id to the latest checkpoint's `channel_values.messages`; `put`
overwrites the entry, reading an absent thread yields nothing. -/
def CheckpointStore : Type := String → Option (List Msg)

/-- A store with no checkpoints. -/
def emptyStore : CheckpointStore := fun _ => none

/-- `checkpointer.aput(config, checkpoint, ...)` restricted to the messages
channel: overwrite the thread's entry. -/
def aput (store : CheckpointStore) (thread_id : String) (messages : List Msg) :
    CheckpointStore :=
  fun t => if t == thread_id then some messages else store t

/-- The read in `load_messages`: the latest checkpoint's
`channel_values.messages`, or `[]` when the thread has no checkpoint. -/
def stored_messages (store : CheckpointStore) (thread_id : String) : List Msg :=
  (store thread_id).getD []

/-- Python `l[-limit:]` for a positive `limit`. -/
def pyLastSlice (l : List Msg) (limit : Nat) : List Msg := l.drop (l.length - limit)

/-- `load_messages(conversation_id, limit=5)` of `app/core/memory.py`:
the stored messages, the last `limit` of them when `limit > 0`. -/
def load_messages (store : CheckpointStore) (conversation_id : Uuid) (limit : Nat) :
    List Msg :=
  let messages := stored_messages store (strUuid conversation_id)
  if limit > 0 then pyLastSlice messages limit else messages

/-- `clear_conversation(conversation_id)` of `app/core/memory.py`: overwrite
the thread's checkpoint with one holding `"messages": []`, via `aput` on the
same thread id. -/
def clear_conversation (store : CheckpointStore) (conversation_id : Uuid) :
    CheckpointStore :=
  aput store (strUuid conversation_id) []

/-- The service-layer result dict built by `run_conversation`. -/
structure InvokeResult where
  answer : String
  follow_up_questions : List String
  cited_chunks : List String
  chunks_used : Nat
  max_similarity : ℚ
  decision_reason : String
deriving DecidableEq

/-- `run_conversation` of `app/core/memory.py`: one graph invocation.
The LangGraph runtime (external collaborator) loads the prior checkpoint's
messages, runs RETRIEVE → GENERATE → FOLLOWUP, and persists the final state —
modelled from the spec for the runtime itself, while the node bodies are the
src functions. `answer` and `provider_followup_output` are the external LLM's
replies for the two calls. -/
def run_conversation (store : CheckpointStore) (corpus : List Chunk)
    (conversation_id : Uuid) (question : String) (document_id : Option Uuid)
    (answer provider_followup_output : String) :
    CheckpointStore × InvokeResult :=
  let history := stored_messages store (strUuid conversation_id)
  let retrieve := rag_retrieve_node corpus document_id
  let messages := updated_messages history question answer
  let follow_ups := generate_follow_up_questions provider_followup_output 3
  let store' := aput store (strUuid conversation_id) messages
  (store',
    ⟨answer, follow_ups, retrieve.retrieved_chunks.map ChunkSummary.id,
      retrieve.retrieved_chunks.length, retrieve.max_similarity,
      retrieve.decision_reason⟩)

/-- Spec-side formulation of "max of the chunk similarities, or 0 when chunks
is empty", through Mathlib's `List.max?`. -/
def specMaxSimilarity (chunks : List Chunk) : ℚ :=
  ((chunks.map Chunk.similarity).max?).getD 0

/-- The code's `max(...) if chunks else 0.0` agrees with the spec-side
`max?`-based formulation. -/
theorem pyMax_map_eq_specMaxSimilarity (chunks : List Chunk) :
    (if chunks.isEmpty then (0 : ℚ) else pyMax (chunks.map Chunk.similarity)) =
      specMaxSimilarity chunks := by
  cases chunks <;> rfl

/-- On a nonempty chunk list the unconditional `max(...)` also agrees with the
spec-side formulation. -/
theorem pyMax_map_eq_specMaxSimilarity_of_ne (chunks : List Chunk) (h : chunks ≠ []) :
    pyMax (chunks.map Chunk.similarity) = specMaxSimilarity chunks := by
  cases chunks with
  | nil => exact absurd rfl h
  | cons c cs => rfl

end MoneyMong

namespace MoneyMong

/-- C1: `should_use_chunks(document_id?, chunks, 0.7)` realises the three-row
decision table in precedence order: a Python-truthy `document_id` forces
`use_chunks = true` with reason `"document_based_conversation"` and
`max_similarity` the maximum chunk similarity (0 for an empty chunk set) —
overriding the similarity check even for empty chunks; otherwise an empty
chunk list yields `use_chunks = false`, reason `"no_relevant_chunks"`,
`max_similarity = 0`; otherwise the maximum similarity decides:
`use_chunks = true` with reason `"relevant_chunks_found"` when it is ≥ 0.7
and `use_chunks = false` with reason `"low_similarity"` when it is below. -/
theorem C1_should_use_chunks_decision_table (document_id : Option String)
    (chunks : List Chunk) :
    (optStrTruthy document_id = true →
      should_use_chunks document_id chunks (7/10) =
        ⟨true, specMaxSimilarity chunks, "document_based_conversation"⟩) ∧
    (optStrTruthy document_id = false → chunks = [] →
      should_use_chunks document_id chunks (7/10) =
        ⟨false, 0, "no_relevant_chunks"⟩) ∧
    (optStrTruthy document_id = false → chunks ≠ [] →
      (specMaxSimilarity chunks ≥ 7/10 →
        should_use_chunks document_id chunks (7/10) =
          ⟨true, specMaxSimilarity chunks, "relevant_chunks_found"⟩) ∧
      (specMaxSimilarity chunks < 7/10 →
        should_use_chunks document_id chunks (7/10) =
          ⟨false, specMaxSimilarity chunks, "low_similarity"⟩)) := by
  refine ⟨?_, ?_, ?_⟩
  · intro h
    simp only [should_use_chunks, h, if_true]
    rw [pyMax_map_eq_specMaxSimilarity]
  · intro h he
    subst he
    simp [should_use_chunks, h]
  · intro h hne
    have hmax := pyMax_map_eq_specMaxSimilarity_of_ne chunks hne
    cases chunks with
    | nil => exact absurd rfl hne
    | cons c cs =>
      constructor
      · intro hge
        simp only [should_use_chunks, h, Bool.false_eq_true, if_false,
          List.isEmpty_cons, hmax, hge, ge_iff_le, if_true]
      · intro hlt
        simp only [should_use_chunks, h, Bool.false_eq_true, if_false,
          List.isEmpty_cons, hmax, ge_iff_le, not_le.mpr hlt, if_false]

/-- Witness for C1 at the spec's four concrete scenarios. -/
theorem C1_should_use_chunks_decision_table_witness :
    should_use_chunks (some "D") [⟨"c1", "D", 0, "a", 9/10⟩, ⟨"c2", "D", 1, "b", 2/5⟩]
        (7/10) =
      ⟨true, specMaxSimilarity [⟨"c1", "D", 0, "a", 9/10⟩, ⟨"c2", "D", 1, "b", 2/5⟩],
        "document_based_conversation"⟩ ∧
    specMaxSimilarity [⟨"c1", "D", 0, "a", 9/10⟩, ⟨"c2", "D", 1, "b", 2/5⟩] = 9/10 ∧
    should_use_chunks none [] (7/10) = ⟨false, 0, "no_relevant_chunks"⟩ ∧
    should_use_chunks none [⟨"c3", "E", 0, "c", 1/2⟩] (7/10) =
      ⟨false, specMaxSimilarity [⟨"c3", "E", 0, "c", 1/2⟩], "low_similarity"⟩ ∧
    should_use_chunks none [⟨"c4", "E", 0, "d", 4/5⟩] (7/10) =
      ⟨true, specMaxSimilarity [⟨"c4", "E", 0, "d", 4/5⟩], "relevant_chunks_found"⟩ := by
  refine ⟨(C1_should_use_chunks_decision_table (some "D") _).1 (by decide), ?_,
    (C1_should_use_chunks_decision_table none []).2.1 rfl rfl,
    ((C1_should_use_chunks_decision_table none _).2.2 rfl (by simp)).2 ?_,
    ((C1_should_use_chunks_decision_table none _).2.2 rfl (by simp)).1 ?_⟩
  · show ((List.max? [(9:ℚ)/10, 2/5]).getD 0) = 9/10
    simp only [List.max?, List.foldl_cons, List.foldl_nil, Option.getD_some]
    exact max_eq_left (by norm_num)
  · show ((List.max? [(1:ℚ)/2]).getD 0) < 7/10
    norm_num [List.max?]
  · show ((List.max? [(4:ℚ)/5]).getD 0) ≥ 7/10
    norm_num [List.max?]

/-- C2 counterexample: with no bound document id, the RETRIEVE node performs
no corpus search at all. On a one-chunk corpus whose chunk has similarity
9/10 ≥ 0.7 — which the full-corpus query `retrieve_chunks` does return — the
node still produces an empty retrieved-chunk list and `use_chunks = false`,
while the claim predicts a full-corpus search and `use_chunks = true`. -/
theorem C2_open_thread_counterexample :
    retrieve_chunks [⟨"c1", "D", 0, "chunk body", 9/10⟩] 3 =
      [⟨"c1", "D", 0, "chunk body", 9/10⟩] ∧
    (9/10 : ℚ) ≥ 7/10 ∧
    (rag_retrieve_node [⟨"c1", "D", 0, "chunk body", 9/10⟩] none).retrieved_chunks = [] ∧
    (rag_retrieve_node [⟨"c1", "D", 0, "chunk body", 9/10⟩] none).use_chunks = false := by
  exact ⟨rfl, by norm_num, rfl, rfl⟩

/-- C2 amended: for every invocation without a document id the RETRIEVE stage
searches nothing — it yields no retrieved chunks, an empty context,
`use_chunks = false` with reason `"no_relevant_chunks"` and
`max_similarity = 0` — so for open threads `use_chunks = true` iff
`max_similarity ≥ 0.7` holds only because both sides are always false. -/
theorem C2_open_thread_no_retrieval (corpus : List Chunk) :
    rag_retrieve_node corpus none =
      ⟨[], "", false, "no_relevant_chunks", 0⟩ ∧
    ((rag_retrieve_node corpus none).use_chunks = true ↔
      (rag_retrieve_node corpus none).max_similarity ≥ 7/10) := by
  refine ⟨rfl, ?_⟩
  show (false = true ↔ (0 : ℚ) ≥ 7/10)
  constructor
  · intro h
    exact absurd h (by simp)
  · intro h
    exact absurd h (by norm_num)

/-- When the context is nonempty after `strip()`, `llm_generate_node` takes
the injected branch of `user_message_content`. -/
theorem user_message_content_of_strip_ne (context question : String)
    (h : pyStrip context ≠ "") :
    user_message_content context question = injected_user_message context question := by
  have hc : context ≠ "" := by
    intro he
    exact h (by rw [he]; rfl)
  have h1 : strTruthy context = true := by
    simpa [strTruthy] using hc
  have h2 : strTruthy (pyStrip context) = true := by
    simpa [strTruthy] using h
  simp [user_message_content, h1, h2]

/-- When the context strips to empty, `llm_generate_node` sends the raw
question. -/
theorem user_message_content_of_strip_eq (context question : String)
    (h : pyStrip context = "") :
    user_message_content context question = question := by
  simp [user_message_content, strTruthy, h]

/-- The injected user message is never equal to the raw question: the literal
prefix makes it strictly longer. -/
theorem injected_user_message_ne (context question : String) :
    injected_user_message context question ≠ question := by
  intro h
  have hl := congrArg String.length h
  simp only [injected_user_message, String.length_append] at hl
  have hpos : 0 < ("[검색된 문서 정보]\n" : String).length := by decide
  omega

/-- C3 counterexample: the GENERATE node hands the LLM the entire loaded
history. With 12 prior turns and no context, the oldest turn — which lies
outside the last-5-exchanges (10-message) window and outside the last 5
messages — still appears in the LLM input. -/
theorem C3_full_history_counterexample :
    humanMessage "turn0" ∈
      llm_input ((List.range 12).map (fun i => humanMessage ("turn" ++ toString i)))
        "" "q" ∧
    humanMessage "turn0" ∉
      ((List.range 12).map (fun i => humanMessage ("turn" ++ toString i))).drop 2 ∧
    humanMessage "turn0" ∉
      ((List.range 12).map (fun i => humanMessage ("turn" ++ toString i))).drop 7 := by
  refine ⟨?_, ?_, ?_⟩ <;> decide

/-- C3 amended: the GENERATE stage composes the LLM input from the entire
conversation history — no recent-window bound is applied — followed by one
human message: the question prefixed with the retrieval-context block when
the context is nonempty after `strip()`, and the raw question otherwise. -/
theorem C3_llm_input_composition (messages : List Msg) (context question : String) :
    llm_input messages context question =
      messages ++ [humanMessage (user_message_content context question)] ∧
    (∀ m ∈ messages, m ∈ llm_input messages context question) ∧
    (pyStrip context ≠ "" →
      user_message_content context question = injected_user_message context question) ∧
    (pyStrip context = "" → user_message_content context question = question) := by
  refine ⟨rfl, ?_, ?_, ?_⟩
  · intro m hm
    exact List.mem_append_left _ hm
  · exact user_message_content_of_strip_ne context question
  · exact user_message_content_of_strip_eq context question

/-- Witness for C3 amended: a one-message history is contained in the LLM
input; a context surviving strip() is injected; a whitespace-only context is
not. -/
theorem C3_llm_input_composition_witness :
    humanMessage "old turn" ∈ llm_input [humanMessage "old turn"] "ctx" "q" ∧
    user_message_content "ctx" "q" = injected_user_message "ctx" "q" ∧
    user_message_content " " "q" = "q" := by
  refine ⟨?_, ?_, ?_⟩
  · exact (C3_llm_input_composition [humanMessage "old turn"] "ctx" "q").2.1
      (humanMessage "old turn") (by decide)
  · exact (C3_llm_input_composition [] "ctx" "q").2.2.1 (by decide)
  · exact (C3_llm_input_composition [] " " "q").2.2.2 (by decide)

/-- `pyJoin` agrees code-point-wise with the standard `List.intercalate`. -/
theorem pyJoin_data (sep : String) (parts : List String) :
    (pyJoin sep parts).data = List.intercalate sep.data (parts.map String.data) := by
  induction parts with
  | nil => simp [pyJoin, List.intercalate]
  | cons x rest ih =>
    cases rest with
    | nil => simp [pyJoin, List.intercalate]
    | cons y t =>
      have hstep : List.intercalate sep.data (x.data :: y.data :: (t.map String.data)) =
          x.data ++ sep.data ++ List.intercalate sep.data (y.data :: (t.map String.data)) := by
        simp [List.intercalate, List.intersperse]
      calc (pyJoin sep (x :: y :: t)).data
          = x.data ++ sep.data ++ (pyJoin sep (y :: t)).data := by
            simp [pyJoin, String.data_append]
        _ = x.data ++ sep.data ++ List.intercalate sep.data ((y :: t).map String.data) := by
            rw [ih]
        _ = List.intercalate sep.data ((x :: y :: t).map String.data) := by
            simp only [List.map_cons]
            rw [hstep]

/-- C4: `build_context` is exactly the blank-line join of the chunk contents
in their given order, truncated to `max_length` code points — never longer
than `max_length`, never reordered — and whenever the RETRIEVE node's
decision is `use_chunks = false` the context it writes into state is `""`. -/
theorem C4_build_context_join_truncate (chunks : List Chunk) (max_length : Nat)
    (corpus : List Chunk) (document_id : Option Uuid) :
    (build_context chunks max_length).length ≤ max_length ∧
    (build_context chunks max_length).data =
      (List.intercalate "\n\n".data
        ((chunks.map Chunk.content).map String.data)).take max_length ∧
    ((rag_retrieve_node corpus document_id).use_chunks = false →
      (rag_retrieve_node corpus document_id).context = "") := by
  refine ⟨?_, ?_, ?_⟩
  · show ((pyJoin "\n\n" (chunks.map Chunk.content)).data.take max_length).length ≤
      max_length
    exact List.length_take_le _ _
  · show (pyJoin "\n\n" (chunks.map Chunk.content)).data.take max_length = _
    rw [pyJoin_data]
  · intro h
    simp only [rag_retrieve_node] at h ⊢
    rw [h]
    simp

/-- Witness for C4 at a concrete chunk list, cap 3, and the no-document node
run whose decision is `use_chunks = false`. -/
theorem C4_build_context_join_truncate_witness :
    (build_context [⟨"c1", "D", 0, "hello", 1⟩] 3).length ≤ 3 ∧
    (build_context [⟨"c1", "D", 0, "hello", 1⟩] 3).data =
      (List.intercalate "\n\n".data
        (([⟨"c1", "D", 0, "hello", 1⟩].map Chunk.content).map String.data)).take 3 ∧
    (rag_retrieve_node [] none).context = "" := by
  obtain ⟨h1, h2, h3⟩ :=
    C4_build_context_join_truncate [⟨"c1", "D", 0, "hello", 1⟩] 3 [] none
  exact ⟨h1, h2, h3 rfl⟩

/-- C5: follow-up generation returns the `<question>`-tag captures of the
provider's reply, each stripped, blanks discarded, truncated to the requested
count: the result never exceeds the requested count nor the number of parsed
captures, contains no blank entry, and is `[]` (not a failure) when nothing
parses. -/
theorem C5_follow_up_parsing (provider_output : String) (num_questions : Nat) :
    (generate_follow_up_questions provider_output num_questions).length ≤
      num_questions ∧
    (generate_follow_up_questions provider_output num_questions).length ≤
      (re_findall_questions (pyStrip provider_output)).length ∧
    (∀ q ∈ generate_follow_up_questions provider_output num_questions, q ≠ "") ∧
    (re_findall_questions (pyStrip provider_output) = [] →
      generate_follow_up_questions provider_output num_questions = []) := by
  simp only [generate_follow_up_questions]
  refine ⟨List.length_take_le _ _, ?_, ?_, ?_⟩
  · have h1 : (((re_findall_questions (pyStrip provider_output)).map pyStrip).filter
        (fun q => !(q == ""))).length ≤
        (re_findall_questions (pyStrip provider_output)).length :=
      le_trans (List.length_filter_le _ _) (le_of_eq (List.length_map _ _))
    refine le_trans ?_ h1
    rw [List.length_take]
    exact min_le_right _ _
  · intro q hq
    have hq2 := List.mem_filter.mp (List.mem_of_mem_take hq)
    intro he
    rw [he] at hq2
    simpa using hq2.2
  · intro h
    rw [h]
    simp

/-- Witness for C5: a parsed entry is nonblank, and a reply with no tags
yields the empty list. -/
theorem C5_follow_up_parsing_witness :
    ("q1?" : String) ≠ "" ∧ generate_follow_up_questions "hello" 3 = [] := by
  constructor
  · exact (C5_follow_up_parsing "<question>q1?</question>" 3).2.2.1 "q1?" (by decide)
  · exact (C5_follow_up_parsing "hello" 3).2.2.2 (by decide)

/-- C6: the human turn written into persisted history by `llm_generate_node`
holds exactly the raw question, and when the context survives `strip()` —
i.e. a context block was injected into the LLM input — the persisted human
content differs from the LLM-input content. -/
theorem C6_persisted_human_turn_raw (messages : List Msg)
    (context question answer : String) :
    updated_messages messages question answer =
      messages ++ [humanMessage question, aiMessage answer] ∧
    (pyStrip context ≠ "" →
      user_message_content context question ≠ question ∧
      humanMessage (user_message_content context question) ≠ humanMessage question) := by
  refine ⟨rfl, ?_⟩
  intro h
  have hne : user_message_content context question ≠ question := by
    rw [user_message_content_of_strip_ne context question h]
    exact injected_user_message_ne context question
  refine ⟨hne, ?_⟩
  intro he
  exact hne (congrArg Msg.content he)

/-- Witness for C6 with a one-character context that survives strip(). -/
theorem C6_persisted_human_turn_raw_witness :
    updated_messages [] "q" "a" = [humanMessage "q", aiMessage "a"] ∧
    user_message_content "c" "q" ≠ "q" ∧
    humanMessage (user_message_content "c" "q") ≠ humanMessage "q" := by
  obtain ⟨h1, h2⟩ := C6_persisted_human_turn_raw [] "c" "q" "a"
  obtain ⟨h3, h4⟩ := h2 (by decide)
  exact ⟨h1, h3, h4⟩

/-- Writing then reading the same thread id returns the written messages. -/
theorem stored_messages_aput_same (store : CheckpointStore) (thread_id : String)
    (messages : List Msg) :
    stored_messages (aput store thread_id messages) thread_id = messages := by
  simp [stored_messages, aput]

/-- C7: every invocation appends exactly the two turns human-then-assistant to
the thread's stored history, so two sequential invocations on one fresh
thread id store exactly the four turns in chronological order. -/
theorem C7_two_turns_per_invocation (store : CheckpointStore)
    (corpus corpus2 : List Chunk) (cid : Uuid) (doc doc2 : Option Uuid)
    (q1 a1 f1 q2 a2 f2 : String) :
    stored_messages (run_conversation store corpus cid q1 doc a1 f1).1 (strUuid cid) =
      stored_messages store (strUuid cid) ++ [humanMessage q1, aiMessage a1] ∧
    stored_messages
        (run_conversation (run_conversation emptyStore corpus cid q1 doc a1 f1).1
          corpus2 cid q2 doc2 a2 f2).1 (strUuid cid) =
      [humanMessage q1, aiMessage a1, humanMessage q2, aiMessage a2] := by
  have step : ∀ (s : CheckpointStore) (c : List Chunk) (d : Option Uuid)
      (q a f : String),
      stored_messages (run_conversation s c cid q d a f).1 (strUuid cid) =
        stored_messages s (strUuid cid) ++ [humanMessage q, aiMessage a] := by
    intro s c d q a f
    show stored_messages
      (aput s (strUuid cid)
        (updated_messages (stored_messages s (strUuid cid)) q a)) (strUuid cid) = _
    rw [stored_messages_aput_same]
    rfl
  refine ⟨step store corpus doc q1 a1 f1, ?_⟩
  rw [step _ corpus2 doc2 q2 a2 f2, step emptyStore corpus doc q1 a1 f1]
  rfl

/-- C8: after `clear_conversation`, `load_messages` on the same thread returns
the empty list (for every `limit`), the thread still owns a checkpoint entry
(identity preserved, not deleted), and a subsequent `aput` on the same id
succeeds in storing a new snapshot. -/
theorem C8_clear_then_empty_then_put (store : CheckpointStore) (cid : Uuid)
    (limit : Nat) (snapshot : List Msg) :
    load_messages (clear_conversation store cid) cid limit = [] ∧
    clear_conversation store cid (strUuid cid) = some [] ∧
    aput (clear_conversation store cid) (strUuid cid) snapshot (strUuid cid) =
      some snapshot := by
  refine ⟨?_, ?_, ?_⟩
  · simp [load_messages, clear_conversation, stored_messages, aput, pyLastSlice]
  · simp [clear_conversation, aput]
  · simp [aput]

/-- C9: both the GENERATE and FOLLOWUP nodes lowercase the incoming
`user_level` and fall back to the beginner level when the lowercased value is
not a recognised enum value; a recognised value maps to its own level — the
conversion is total, so no `user_level` string raises out of the node. -/
theorem C9_user_level_fallback (user_level : String) :
    (userLevelOfValue (pyLower user_level) = none →
      llm_generate_node_level user_level = UserLevel.beginner ∧
      followup_node_level user_level = UserLevel.beginner) ∧
    (∀ level, userLevelOfValue (pyLower user_level) = some level →
      llm_generate_node_level user_level = level ∧
      followup_node_level user_level = level) := by
  constructor
  · intro h
    constructor <;> simp [llm_generate_node_level, followup_node_level, h]
  · intro level h
    constructor <;> simp [llm_generate_node_level, followup_node_level, h]

/-- Witness for C9: an unrecognised level string (even uppercased) falls back
to beginner in both nodes; a recognised one is lowercased and accepted. -/
theorem C9_user_level_fallback_witness :
    llm_generate_node_level "EXPERT" = UserLevel.beginner ∧
    followup_node_level "EXPERT" = UserLevel.beginner ∧
    llm_generate_node_level "Advanced" = UserLevel.advanced := by
  obtain ⟨h1, h2⟩ := (C9_user_level_fallback "EXPERT").1 (by decide)
  exact ⟨h1, h2,
    ((C9_user_level_fallback "Advanced").2 UserLevel.advanced (by decide)).1⟩

/-- The RETRIEVE node's chunk-summary list is capped by `top_k = 3`. -/
theorem rag_retrieve_node_chunks_le_three (corpus : List Chunk)
    (document_id : Option Uuid) :
    (rag_retrieve_node corpus document_id).retrieved_chunks.length ≤ 3 := by
  cases document_id with
  | none => simp [rag_retrieve_node]
  | some d =>
    show ((retrieve_chunks_for_document corpus (some (strUuid d)) 3).map
      summarize_chunk).length ≤ 3
    rw [List.length_map]
    exact List.length_take_le _ _

/-- C10: retrieval is capped at `top_k = 3`, so the retrieved-chunk summary
list, the cited chunk ids of the invocation result, and the reported
`chunks_used` count never exceed 3. -/
theorem C10_top_k_caps (store : CheckpointStore) (corpus : List Chunk) (cid : Uuid)
    (question : String) (document_id : Option Uuid) (answer fo : String) :
    (rag_retrieve_node corpus document_id).retrieved_chunks.length ≤ 3 ∧
    (run_conversation store corpus cid question document_id answer fo).2.cited_chunks.length ≤ 3 ∧
    (run_conversation store corpus cid question document_id answer fo).2.chunks_used ≤ 3 := by
  refine ⟨rag_retrieve_node_chunks_le_three corpus document_id, ?_, ?_⟩
  · show ((rag_retrieve_node corpus document_id).retrieved_chunks.map
      ChunkSummary.id).length ≤ 3
    rw [List.length_map]
    exact rag_retrieve_node_chunks_le_three corpus document_id
  · exact rag_retrieve_node_chunks_le_three corpus document_id

end MoneyMong
